import Mathlib

/-!
Verification of the sentiment-conditioned text generator.

The development shallowly embeds the three Python source files:
`sentiment.py` (the `SentimentAnalyzer` class), `text_generator.py`
(the `TextGenerator` class) and the history handling of `main.py`.

Strings are modelled as lists of characters (`Str`), so that Python's
`strip`, `lower`, `split`, slicing and containment tests can be written
as executable functions with the same semantics.  The two pre-trained
models are external black boxes: the classifier's top result and the
generator's raw output (or its raised exception) are parameters of the
embedded functions, and the random template choice of `random.choice`
is a `Fin 5` parameter.
-/

set_option maxRecDepth 8192

namespace SentimentGen

/-- A Python string, modelled as its list of characters. -/
abbrev Str := List Char

/-- Python `s.lstrip()`: drop leading whitespace. -/
def stripLeft (s : Str) : Str := s.dropWhile Char.isWhitespace

/-- Python `s.rstrip()`: drop trailing whitespace. -/
def stripRight (s : Str) : Str := (s.reverse.dropWhile Char.isWhitespace).reverse

/-- Python `s.strip()`: drop leading and trailing whitespace. -/
def strip (s : Str) : Str := stripRight (stripLeft s)

/-- Python `s.lower()`. -/
def lower (s : Str) : Str := s.map Char.toLower

/-- Python `s.endswith(('.', '!', '?'))`, also used for
`s[-1] in '.!?'` on a non-empty `s`: the last character is terminal
punctuation. -/
def endsPunct (s : Str) : Bool :=
  match s.getLast? with
  | some c => c = '.' || c = '!' || c = '?'
  | none => false

/-- Python `s.split(sep, 1)` for a non-empty separator, reported as
`none` when `sep` does not occur in `s` (one part) and as
`some (before, after)` when it does (two parts, split at the first
occurrence). -/
def splitFirst (sep : Str) : Str → Option (Str × Str)
  | [] => if sep.isEmpty then some ([], []) else none
  | c :: rest =>
    if sep.isPrefixOf (c :: rest) then some ([], (c :: rest).drop sep.length)
    else
      match splitFirst sep rest with
      | some (b, a) => some (c :: b, a)
      | none => none

/-- Python `s.split('.')`: the pieces of `s` between the occurrences of
`'.'`, empty pieces included. -/
def splitOnDot : Str → List Str
  | [] => [[]]
  | c :: rest =>
    let r := splitOnDot rest
    if c = '.' then [] :: r
    else
      match r with
      | [] => [[c]]
      | h :: t => (c :: h) :: t

/-- Python `needle in hay` on strings: `needle` occurs contiguously in
`hay`. -/
def occursIn (needle hay : Str) : Bool := (splitFirst needle hay).isSome

/-- Python `any(word in s for word in words)`. -/
def containsAnyWord (words : List Str) (s : Str) : Bool :=
  words.any (fun w => occursIn w s)

/-- The top result of the Hugging Face classification pipeline,
`self._pipeline(text)[0]` in `sentiment.py`: a dict with a `label`
(absent when the dict has no `"label"` key, in which case
`result.get("label", "")` yields the empty string) and a confidence
score. -/
structure ClassifierResult where
  label : Option Str
  score : ℚ

/-- `SentimentAnalyzer.detect_sentiment` (sentiment.py lines 19-39),
with the classifier's top result passed explicitly. -/
def detect_sentiment (result : ClassifierResult) (text : Str) : Str :=
  if text.isEmpty || (strip text).isEmpty then "neutral".data
  else
    let label := lower (result.label.getD [])
    if occursIn "pos".data label then "positive".data
    else if occursIn "neg".data label then "negative".data
    else "neutral".data

/-- `TextGenerator._generate_contextual_fallback` (text_generator.py
lines 172-215): a deterministic first-match-wins keyword lookup on the
lower-cased prompt. -/
def _generate_contextual_fallback (prompt sentiment : Str) : Str :=
  let prompt_lower := lower prompt
  if sentiment = "positive".data then
    if containsAnyWord ["promot".data, "success".data, "achiev".data, "win".data, "won".data] prompt_lower then
      "Excitement filled the room as congratulations poured in. All the hard work had finally paid off, and the future looked brighter than ever.".data
    else if containsAnyWord ["love".data, "happy".data, "joy".data, "excit".data, "great".data] prompt_lower then
      "The joy was contagious, spreading to everyone nearby. It was one of those perfect moments that would be remembered for years to come.".data
    else if containsAnyWord ["birth".data, "baby".data, "wedding".data, "marry".data] prompt_lower then
      "Tears of joy flowed freely as everyone celebrated together. The happiness in the air was palpable, creating memories that would last a lifetime.".data
    else
      "The positive energy was infectious. Everything seemed to fall perfectly into place, creating a sense of accomplishment and satisfaction.".data
  else if sentiment = "negative".data then
    if containsAnyWord ["traffic".data, "late".data, "delay".data, "stuck".data] prompt_lower then
      "The endless waiting and frustration built up with every passing minute. It was one of those days when nothing seemed to go right.".data
    else if containsAnyWord ["fail".data, "lost".data, "broke".data, "bad".data, "terrible".data] prompt_lower then
      "Disappointment washed over like a wave. The setback felt overwhelming, making it hard to see any silver lining.".data
    else if containsAnyWord ["hate".data, "angry".data, "frustrat".data, "annoy".data] prompt_lower then
      "The irritation was almost unbearable. Every little thing seemed to compound the frustration, creating a spiral of negativity.".data
    else
      "The situation felt increasingly difficult to handle. One problem led to another, creating a cascade of complications.".data
  else
    if containsAnyWord ["coffee".data, "tea".data, "breakfast".data, "lunch".data, "dinner".data] prompt_lower then
      "It was a calm and ordinary moment â€” just another part of the usual routine. The familiar ritual provided a sense of normalcy.".data
    else if containsAnyWord ["work".data, "office".data, "meeting".data, "email".data] prompt_lower then
      "The day proceeded with its typical rhythm. Tasks were completed methodically, one after another, without any particular urgency.".data
    else if containsAnyWord ["walk".data, "went".data, "saw".data, "did".data] prompt_lower then
      "Nothing particularly noteworthy followed. It was simply another ordinary experience in the flow of daily life.".data
    else
      "Things continued in their usual pattern. Neither particularly good nor bad, just another regular moment passing by.".data

/-- `TextGenerator._get_sentiment_prompt` (text_generator.py lines
40-84).  `random.choice` over the five templates of the selected
sentiment is modelled by the `choice` index. -/
def _get_sentiment_prompt (choice : Fin 5) (base_prompt sentiment : Str) : Str :=
  let base_prompt := strip base_prompt
  let base_prompt := if endsPunct base_prompt then base_prompt else base_prompt ++ ['.']
  let positive : List Str :=
    ["Story: ".data ++ base_prompt ++ " The atmosphere was electric with excitement.".data,
     "Story: ".data ++ base_prompt ++ " Everyone shared in the joy of the moment.".data,
     "Story: ".data ++ base_prompt ++ " This was a moment to celebrate.".data,
     "Story: ".data ++ base_prompt ++ " The feeling of accomplishment was overwhelming.".data,
     "Story: ".data ++ base_prompt ++ " Success felt incredible.".data]
  let negative : List Str :=
    ["Story: ".data ++ base_prompt ++ " The frustration was overwhelming.".data,
     "Story: ".data ++ base_prompt ++ " This was incredibly disappointing.".data,
     "Story: ".data ++ base_prompt ++ " Nothing seemed to go as planned.".data,
     "Story: ".data ++ base_prompt ++ " The situation felt hopeless.".data,
     "Story: ".data ++ base_prompt ++ " It was exhausting and demoralizing.".data]
  let neutral : List Str :=
    ["Story: ".data ++ base_prompt ++ " It was part of the daily routine.".data,
     "Story: ".data ++ base_prompt ++ " The day continued as usual.".data,
     "Story: ".data ++ base_prompt ++ " Nothing particularly noteworthy followed.".data,
     "Story: ".data ++ base_prompt ++ " It was a typical occurrence.".data,
     "Story: ".data ++ base_prompt ++ " The routine proceeded normally.".data]
  let templates :=
    if sentiment = "positive".data then positive
    else if sentiment = "negative".data then negative
    else if sentiment = "neutral".data then neutral
    else neutral
  templates.getD choice.val []

/-- The sampling configuration handed to `self.generator(...)` in
`generate_text` (text_generator.py lines 104-128). -/
structure GenParams where
  max_length : Nat
  min_length : Nat
  num_return_sequences : Nat
  temperature : ℚ
  top_p : ℚ
  do_sample : Bool
  pad_token_id : Nat
  no_repeat_ngram_size : Nat
  repetition_penalty : ℚ
deriving DecidableEq

/-- The generation parameters chosen by `generate_text`
(text_generator.py lines 104-128): sentiment-dependent temperature and
top-p, fixed remaining constraints, pad token equal to the tokenizer's
end-of-sequence token id. -/
def generationParams (sentiment : Str) (eos_token_id : Nat) : GenParams :=
  let tp : ℚ × ℚ :=
    if sentiment = "positive".data then (0.8, 0.92)
    else if sentiment = "negative".data then (0.75, 0.9)
    else (0.7, 0.85)
  ⟨60, 20, 1, tp.1, tp.2, true, eos_token_id, 3, 1.2⟩

/-- The fixed template openers scanned at text_generator.py lines
145-147. -/
def sentimentStarters : List Str :=
  ["The atmosphere was".data, "Everyone shared".data, "This was".data, "The feeling".data,
   "Success felt".data, "The frustration".data, "Nothing seemed".data, "The situation".data,
   "It was".data, "The day".data, "The routine".data]

/-- Step 1 of the output cleanup (text_generator.py lines 134-138):
when the raw output contains the literal `"Story: "`, keep only the
text after its first occurrence. -/
def stripStoryMarker (generated : Str) : Str :=
  if occursIn "Story: ".data generated then
    match splitFirst "Story: ".data generated with
    | some (_, after) => after
    | none => generated
  else generated

/-- Step 2 of the output cleanup (text_generator.py lines 141-142):
when the text still starts with the original user prompt, drop that
prefix and trim. -/
def stripEchoedPrompt (prompt generated : Str) : Str :=
  if prompt.isPrefixOf generated then strip (generated.drop prompt.length)
  else generated

/-- The output cleanup pipeline of `generate_text` (text_generator.py
lines 130-156): drop the `"Story: "` framing, drop the echoed prompt,
and, unless the text starts with one of the template openers, drop the
first `'.'`-delimited sentence when there is more than one. -/
def postProcess (prompt generated : Str) : Str :=
  let generated := stripStoryMarker generated
  let generated := stripEchoedPrompt prompt generated
  if sentimentStarters.any (fun t => t.isPrefixOf generated) then generated
  else
    let sentences := splitOnDot generated
    if sentences.length > 1 then strip (List.intercalate ". ".data (sentences.drop 1))
    else generated

/-- The outcome of the single `self.generator(...)` call inside the
`try` block of `generate_text`: either an exception, or a raw
`generated_text` string. -/
inductive GenOutcome where
  | raised : GenOutcome
  | ok : Str → GenOutcome

/-- `TextGenerator.generate_text` (text_generator.py lines 86-170).
`model_loaded` is the flag set in `__init__`, `choice` the
`random.choice` index of the template, and `outcome` the behaviour of
the underlying model call. -/
def generate_text (model_loaded : Bool) (choice : Fin 5) (outcome : GenOutcome)
    (prompt sentiment : Str) : Str :=
  if !model_loaded then _generate_contextual_fallback prompt sentiment
  else
    let _enhanced_prompt := _get_sentiment_prompt choice prompt sentiment
    match outcome with
    | GenOutcome.raised => _generate_contextual_fallback prompt sentiment
    | GenOutcome.ok generated_text =>
      let generated := postProcess prompt generated_text
      if (strip generated).length < 20 then _generate_contextual_fallback prompt sentiment
      else if !generated.isEmpty && !endsPunct generated then generated ++ ['.']
      else generated

/-- The cleanup pipeline as the specification words it, differing from
`postProcess` only in the last step: when no template opener matches,
the first `'.'`-delimited sentence is always dropped, with no guard on
the number of sentences. -/
def postProcessClaimed (prompt generated : Str) : Str :=
  let generated := stripStoryMarker generated
  let generated := stripEchoedPrompt prompt generated
  if sentimentStarters.any (fun t => t.isPrefixOf generated) then generated
  else strip (List.intercalate ". ".data ((splitOnDot generated).drop 1))

/-- The cleanup pipeline as the amended claim words it: when no
template opener matches and the text contains at least one `'.'`, drop
the first sentence and rejoin the remainder; a text with no `'.'` is
left unchanged. -/
def postProcessAmended (prompt generated : Str) : Str :=
  let generated := stripStoryMarker generated
  let generated := stripEchoedPrompt prompt generated
  if sentimentStarters.any (fun t => t.isPrefixOf generated) then generated
  else if generated.contains '.' then
    strip (List.intercalate ". ".data ((splitOnDot generated).drop 1))
  else generated

/-- One entry of `st.session_state.history` (main.py lines 210-215). -/
structure HistoryEntry where
  prompt : Str
  sentiment : Str
  generated : Str
  timestamp : Str
deriving DecidableEq

/-- The two operations main.py performs on the session history list:
a generation appends its entry (main.py line 210), and the
`Clear History` button resets the list (main.py line 109). -/
inductive UiAction where
  | generate : HistoryEntry → UiAction
  | clear : UiAction

/-- The effect of one UI action on the history list. -/
def uiStep (history : List HistoryEntry) : UiAction → List HistoryEntry
  | UiAction.generate entry => history ++ [entry]
  | UiAction.clear => []

/-- The display surface of the history (main.py line 223):
`reversed(st.session_state.history[-5:])`, newest first. -/
def displayedHistory (history : List HistoryEntry) : List HistoryEntry :=
  (history.drop (history.length - 5)).reverse

/-- The five sentiment-flavoured continuation clauses of the templates
of `_get_sentiment_prompt`, as the specification describes them: the
part of each template that follows the cleaned prompt. -/
def storyClauses (sentiment : Str) : List Str :=
  if sentiment = "positive".data then
    [" The atmosphere was electric with excitement.".data,
     " Everyone shared in the joy of the moment.".data,
     " This was a moment to celebrate.".data,
     " The feeling of accomplishment was overwhelming.".data,
     " Success felt incredible.".data]
  else if sentiment = "negative".data then
    [" The frustration was overwhelming.".data,
     " This was incredibly disappointing.".data,
     " Nothing seemed to go as planned.".data,
     " The situation felt hopeless.".data,
     " It was exhausting and demoralizing.".data]
  else
    [" It was part of the daily routine.".data,
     " The day continued as usual.".data,
     " Nothing particularly noteworthy followed.".data,
     " It was a typical occurrence.".data,
     " The routine proceeded normally.".data]

theorem stripRight_length_le (s : Str) : (stripRight s).length ≤ s.length := by
  unfold stripRight
  calc ((s.reverse.dropWhile Char.isWhitespace).reverse).length
      = (s.reverse.dropWhile Char.isWhitespace).length := by simp
    _ ≤ s.reverse.length := (List.dropWhile_sublist _).length_le
    _ = s.length := by simp

theorem strip_length_le_stripLeft (s : Str) : (strip s).length ≤ (stripLeft s).length :=
  stripRight_length_le (stripLeft s)

theorem stripRight_append_dot (s : Str) : stripRight (s ++ ['.']) = s ++ ['.'] := by
  unfold stripRight
  rw [List.reverse_append]
  simp only [List.reverse_cons, List.reverse_nil, List.nil_append, List.singleton_append,
    List.dropWhile_cons, show Char.isWhitespace '.' = false from rfl]
  simp

theorem stripLeft_append_of_ne_nil (s t : Str) (h : stripLeft s ≠ []) :
    stripLeft (s ++ t) = stripLeft s ++ t := by
  unfold stripLeft at *
  rw [List.dropWhile_append, if_neg]
  simpa [List.isEmpty_iff] using h

theorem strip_append_dot (s : Str) (h : stripLeft s ≠ []) :
    strip (s ++ ['.']) = stripLeft s ++ ['.'] := by
  unfold strip
  rw [stripLeft_append_of_ne_nil s ['.'] h, stripRight_append_dot]

theorem endsPunct_getLast (g : Str) (h : endsPunct g = true) :
    g.getLast? ∈ [some '.', some '!', some '?'] := by
  unfold endsPunct at h
  cases hl : g.getLast? with
  | none => rw [hl] at h; cases h
  | some c =>
    rw [hl] at h
    simp only [Bool.or_eq_true, decide_eq_true_eq] at h
    rcases h with (h | h) | h <;> subst h <;> simp

theorem fallback_wellformed (prompt sentiment : Str) :
    _generate_contextual_fallback prompt sentiment ≠ [] ∧
    (_generate_contextual_fallback prompt sentiment).getLast? ∈ [some '.', some '!', some '?'] ∧
    20 ≤ (strip (_generate_contextual_fallback prompt sentiment)).length := by
  unfold _generate_contextual_fallback
  dsimp only
  repeat' split
  all_goals exact ⟨by decide, by decide, by decide⟩

theorem generated_final_wellformed (g : Str) (h : ¬ (strip g).length < 20) :
    (if !g.isEmpty && !endsPunct g then g ++ ['.'] else g) ≠ [] ∧
    (if !g.isEmpty && !endsPunct g then g ++ ['.'] else g).getLast? ∈ [some '.', some '!', some '?'] ∧
    20 ≤ (strip (if !g.isEmpty && !endsPunct g then g ++ ['.'] else g)).length := by
  have hlen : 20 ≤ (strip g).length := Nat.le_of_not_lt h
  have hg : g ≠ [] := by
    intro e
    subst e
    exact absurd hlen (by decide)
  have hsl : stripLeft g ≠ [] := by
    intro e
    unfold strip at hlen
    rw [e] at hlen
    exact absurd hlen (by decide)
  by_cases hc : (!g.isEmpty && !endsPunct g) = true
  · simp only [if_pos hc]
    refine ⟨by simp, by simp, ?_⟩
    rw [strip_append_dot g hsl]
    calc 20 ≤ (strip g).length := hlen
      _ ≤ (stripLeft g).length := strip_length_le_stripLeft g
      _ ≤ (stripLeft g ++ ['.']).length := by simp
  · simp only [if_neg hc]
    have hep : endsPunct g = true := by
      by_contra hne
      apply hc
      simp [List.isEmpty_iff, hg, Bool.eq_false_iff.mpr hne]
    exact ⟨hg, endsPunct_getLast g hep, hlen⟩

theorem generate_text_ok_eq (choice : Fin 5) (raw prompt sentiment : Str) :
    generate_text true choice (GenOutcome.ok raw) prompt sentiment =
      (if (strip (postProcess prompt raw)).length < 20 then
        _generate_contextual_fallback prompt sentiment
      else if !(postProcess prompt raw).isEmpty && !endsPunct (postProcess prompt raw) then
        postProcess prompt raw ++ ['.']
      else postProcess prompt raw) := rfl

/-- C1: for every non-empty prompt and every sentiment among positive,
negative and neutral, `generate_text` returns a non-empty string whose
last character is `'.'`, `'!'` or `'?'` and whose trimmed length is at
least 20, on every model outcome (arbitrary raw output or a raised
exception) and whether or not the model loaded. -/
theorem generate_text_wellformed (model_loaded : Bool) (choice : Fin 5) (outcome : GenOutcome)
    (prompt sentiment : Str) (hprompt : prompt ≠ [])
    (hsent : sentiment = "positive".data ∨ sentiment = "negative".data ∨
      sentiment = "neutral".data) :
    generate_text model_loaded choice outcome prompt sentiment ≠ [] ∧
    (generate_text model_loaded choice outcome prompt sentiment).getLast? ∈
      [some '.', some '!', some '?'] ∧
    20 ≤ (strip (generate_text model_loaded choice outcome prompt sentiment)).length := by
  cases model_loaded with
  | false => exact fallback_wellformed prompt sentiment
  | true =>
    cases outcome with
    | raised => exact fallback_wellformed prompt sentiment
    | ok raw =>
      rw [generate_text_ok_eq]
      by_cases hlen : (strip (postProcess prompt raw)).length < 20
      · rw [if_pos hlen]
        exact fallback_wellformed prompt sentiment
      · rw [if_neg hlen]
        exact generated_final_wellformed (postProcess prompt raw) hlen

theorem generate_text_wellformed_witness :
    ("Hi".data ≠ ([] : Str)) ∧
    (generate_text true 0 (GenOutcome.ok "Once upon a time there was a very long story being told".data)
        "Hi".data "positive".data ≠ [] ∧
      (generate_text true 0 (GenOutcome.ok "Once upon a time there was a very long story being told".data)
        "Hi".data "positive".data).getLast? ∈ [some '.', some '!', some '?'] ∧
      20 ≤ (strip (generate_text true 0
        (GenOutcome.ok "Once upon a time there was a very long story being told".data)
        "Hi".data "positive".data)).length) :=
  ⟨by decide,
    generate_text_wellformed true 0
      (GenOutcome.ok "Once upon a time there was a very long story being told".data)
      "Hi".data "positive".data (by decide) (Or.inl rfl)⟩

/-- C2: `generate_text` never raises: with the model unloaded every
call returns the contextual fallback whatever the model outcome would
be; an exception during generation yields the contextual fallback; and
a cleaned output whose trimmed length is under 20 characters is
replaced by the contextual fallback. -/
theorem generate_text_failure_paths (choice : Fin 5) (outcome : GenOutcome)
    (prompt sentiment : Str) :
    generate_text false choice outcome prompt sentiment =
      _generate_contextual_fallback prompt sentiment ∧
    generate_text true choice GenOutcome.raised prompt sentiment =
      _generate_contextual_fallback prompt sentiment ∧
    (∀ raw, (strip (postProcess prompt raw)).length < 20 →
      generate_text true choice (GenOutcome.ok raw) prompt sentiment =
        _generate_contextual_fallback prompt sentiment) := by
  refine ⟨rfl, rfl, ?_⟩
  intro raw hlen
  rw [generate_text_ok_eq, if_pos hlen]

theorem generate_text_failure_paths_witness :
    generate_text false 0 GenOutcome.raised "Hi there".data "positive".data =
      _generate_contextual_fallback "Hi there".data "positive".data ∧
    generate_text true 0 (GenOutcome.ok "tiny".data) "Hi there".data "positive".data =
      _generate_contextual_fallback "Hi there".data "positive".data :=
  ⟨(generate_text_failure_paths 0 GenOutcome.raised "Hi there".data "positive".data).1,
    (generate_text_failure_paths 0 (GenOutcome.ok "tiny".data) "Hi there".data
      "positive".data).2.2 "tiny".data (by decide)⟩

/-- C3: `detect_sentiment` always returns one of `"positive"`,
`"negative"`, `"neutral"`; on empty or whitespace-only text it returns
`"neutral"` for every possible classifier result (no model call);
otherwise it lower-cases the model's top label and maps a label
containing `"pos"` to positive, then one containing `"neg"` to
negative, anything else to neutral. -/
theorem detect_sentiment_range (result : ClassifierResult) (text : Str) :
    detect_sentiment result text ∈ ["positive".data, "negative".data, "neutral".data] ∧
    ((text.isEmpty || (strip text).isEmpty) = true →
      ∀ r : ClassifierResult, detect_sentiment r text = "neutral".data) ∧
    ((text.isEmpty || (strip text).isEmpty) = false →
      detect_sentiment result text =
        (if occursIn "pos".data (lower (result.label.getD [])) then "positive".data
         else if occursIn "neg".data (lower (result.label.getD [])) then "negative".data
         else "neutral".data)) := by
  refine ⟨?_, ?_, ?_⟩
  · unfold detect_sentiment
    dsimp only
    repeat' split
    all_goals decide
  · intro hb r
    unfold detect_sentiment
    rw [if_pos hb]
  · intro hb
    unfold detect_sentiment
    rw [if_neg (by simp [hb])]

theorem detect_sentiment_range_witness :
    detect_sentiment ⟨some "POSITIVE".data, 0⟩ "good day".data = "positive".data :=
  ((detect_sentiment_range ⟨some "POSITIVE".data, 0⟩ "good day".data).2.2
    (by decide)).trans (by decide)

/-- C4: the contextual fallback on the three reference prompts returns
exactly the matching keyword-branch texts, not the generic defaults. -/
theorem contextual_fallback_keyword_cases :
    _generate_contextual_fallback "I got a promotion today".data "positive".data =
      "Excitement filled the room as congratulations poured in. All the hard work had finally paid off, and the future looked brighter than ever.".data ∧
    _generate_contextual_fallback "I was stuck in traffic".data "negative".data =
      "The endless waiting and frustration built up with every passing minute. It was one of those days when nothing seemed to go right.".data ∧
    _generate_contextual_fallback "I had coffee this morning".data "neutral".data =
      "It was a calm and ordinary moment â€” just another part of the usual routine. The familiar ritual provided a sense of normalcy.".data :=
  ⟨by decide, by decide, by decide⟩

/-- C6: the sampling parameters are exactly temperature 0.8 and top-p
0.92 for positive, 0.75 and 0.9 for negative, 0.7 and 0.85 for
neutral, with the fixed constraints max length 60, min length 20, one
returned sequence, no-repeat n-gram size 3, repetition penalty 1.2 and
pad token equal to the tokenizer's end-of-sequence token. -/
theorem generation_params_exact (eos_token_id : Nat) :
    generationParams "positive".data eos_token_id =
      ⟨60, 20, 1, 0.8, 0.92, true, eos_token_id, 3, 1.2⟩ ∧
    generationParams "negative".data eos_token_id =
      ⟨60, 20, 1, 0.75, 0.9, true, eos_token_id, 3, 1.2⟩ ∧
    generationParams "neutral".data eos_token_id =
      ⟨60, 20, 1, 0.7, 0.85, true, eos_token_id, 3, 1.2⟩ :=
  ⟨rfl, rfl, rfl⟩

/-- C10: the `"pos"` test precedes the `"neg"` test, so a label whose
lower-cased form contains both maps to positive; and a classifier
result with no label key maps to neutral rather than raising. -/
theorem detect_sentiment_pos_before_neg (result : ClassifierResult) (text : Str)
    (hblank : (text.isEmpty || (strip text).isEmpty) = false) :
    (occursIn "pos".data (lower (result.label.getD [])) = true ∧
      occursIn "neg".data (lower (result.label.getD [])) = true →
      detect_sentiment result text = "positive".data) ∧
    (result.label = none → detect_sentiment result text = "neutral".data) := by
  constructor
  · rintro ⟨hp, -⟩
    unfold detect_sentiment
    rw [if_neg (by simp [hblank])]
    dsimp only
    rw [if_pos hp]
  · intro hn
    unfold detect_sentiment
    rw [if_neg (by simp [hblank])]
    dsimp only
    rw [hn]
    decide

theorem detect_sentiment_pos_before_neg_witness :
    detect_sentiment ⟨some "NEG-POS".data, 0⟩ "hello".data = "positive".data ∧
    detect_sentiment ⟨none, 0⟩ "hello".data = "neutral".data :=
  ⟨(detect_sentiment_pos_before_neg ⟨some "NEG-POS".data, 0⟩ "hello".data (by decide)).1
      ⟨by decide, by decide⟩,
    (detect_sentiment_pos_before_neg ⟨none, 0⟩ "hello".data (by decide)).2 rfl⟩

theorem story_shape_aux (p clause : Str) :
    ∃ rest, "Story: ".data ++
        (if endsPunct (strip p) then strip p else strip p ++ ['.']) ++ clause =
      "Story: ".data ++ (strip p ++ rest) := by
  cases h : endsPunct (strip p) with
  | false => exact ⟨'.' :: clause, by simp [List.append_assoc]⟩
  | true => exact ⟨clause, by simp [List.append_assoc]⟩

/-- C5: the constructed prompt trims the user prompt, appends a period
exactly when the trimmed prompt does not already end in terminal
punctuation, and is one of exactly five templates for the sentiment,
each the cleaned prompt framed by the literal story marker and followed
by a period-terminated sentiment clause, with the user's trimmed text
preserved right after the marker. -/
theorem sentiment_prompt_shape (prompt sentiment : Str) (choice : Fin 5)
    (hsent : sentiment = "positive".data ∨ sentiment = "negative".data ∨
      sentiment = "neutral".data) :
    (storyClauses sentiment).length = 5 ∧
    (∃ clause, clause ∈ storyClauses sentiment ∧ clause.getLast? = some '.' ∧
      _get_sentiment_prompt choice prompt sentiment =
        "Story: ".data ++
          (if endsPunct (strip prompt) then strip prompt else strip prompt ++ ['.']) ++
          clause) ∧
    (∃ rest, _get_sentiment_prompt choice prompt sentiment =
      "Story: ".data ++ (strip prompt ++ rest)) := by
  obtain ⟨h5, clause, hmem, hlast, heq⟩ :
      (storyClauses sentiment).length = 5 ∧
      ∃ clause, clause ∈ storyClauses sentiment ∧ clause.getLast? = some '.' ∧
        _get_sentiment_prompt choice prompt sentiment =
          "Story: ".data ++
            (if endsPunct (strip prompt) then strip prompt else strip prompt ++ ['.']) ++
            clause := by
    rcases hsent with h | h | h <;> subst h <;> fin_cases choice
    · exact ⟨by decide, " The atmosphere was electric with excitement.".data,
        by decide, by decide, rfl⟩
    · exact ⟨by decide, " Everyone shared in the joy of the moment.".data,
        by decide, by decide, rfl⟩
    · exact ⟨by decide, " This was a moment to celebrate.".data,
        by decide, by decide, rfl⟩
    · exact ⟨by decide, " The feeling of accomplishment was overwhelming.".data,
        by decide, by decide, rfl⟩
    · exact ⟨by decide, " Success felt incredible.".data,
        by decide, by decide, rfl⟩
    · exact ⟨by decide, " The frustration was overwhelming.".data,
        by decide, by decide, rfl⟩
    · exact ⟨by decide, " This was incredibly disappointing.".data,
        by decide, by decide, rfl⟩
    · exact ⟨by decide, " Nothing seemed to go as planned.".data,
        by decide, by decide, rfl⟩
    · exact ⟨by decide, " The situation felt hopeless.".data,
        by decide, by decide, rfl⟩
    · exact ⟨by decide, " It was exhausting and demoralizing.".data,
        by decide, by decide, rfl⟩
    · exact ⟨by decide, " It was part of the daily routine.".data,
        by decide, by decide, rfl⟩
    · exact ⟨by decide, " The day continued as usual.".data,
        by decide, by decide, rfl⟩
    · exact ⟨by decide, " Nothing particularly noteworthy followed.".data,
        by decide, by decide, rfl⟩
    · exact ⟨by decide, " It was a typical occurrence.".data,
        by decide, by decide, rfl⟩
    · exact ⟨by decide, " The routine proceeded normally.".data,
        by decide, by decide, rfl⟩
  refine ⟨h5, ⟨clause, hmem, hlast, heq⟩, ?_⟩
  rw [heq]
  exact story_shape_aux prompt clause

theorem sentiment_prompt_shape_witness :
    (storyClauses "positive".data).length = 5 ∧
    (∃ clause, clause ∈ storyClauses "positive".data ∧ clause.getLast? = some '.' ∧
      _get_sentiment_prompt 2 "Hello!".data "positive".data =
        "Story: ".data ++
          (if endsPunct (strip "Hello!".data) then strip "Hello!".data
           else strip "Hello!".data ++ ['.']) ++ clause) ∧
    (∃ rest, _get_sentiment_prompt 2 "Hello!".data "positive".data =
      "Story: ".data ++ (strip "Hello!".data ++ rest)) :=
  sentiment_prompt_shape "Hello!".data "positive".data 2 (Or.inl rfl)

theorem splitOnDot_ne_nil (g : Str) : splitOnDot g ≠ [] := by
  cases g with
  | nil => simp [splitOnDot]
  | cons c rest =>
    unfold splitOnDot
    dsimp only
    split
    · simp
    · split <;> simp

theorem splitOnDot_length_gt (g : Str) : 1 < (splitOnDot g).length ↔ '.' ∈ g := by
  induction g with
  | nil => simp [splitOnDot]
  | cons c rest ih =>
    unfold splitOnDot
    dsimp only
    by_cases hc : c = '.'
    · subst hc
      have hpos : 0 < (splitOnDot rest).length :=
        List.length_pos.mpr (splitOnDot_ne_nil rest)
      rw [if_pos rfl]
      constructor
      · intro _
        exact List.mem_cons_self _ _
      · intro _
        simp only [List.length_cons]
        omega
    · rw [if_neg hc]
      cases hsr : splitOnDot rest with
      | nil => exact absurd hsr (splitOnDot_ne_nil rest)
      | cons a l =>
        rw [hsr] at ih
        simp only [List.length_cons] at ih ⊢
        rw [List.mem_cons]
        constructor
        · intro h
          exact Or.inr (ih.mp h)
        · rintro (h | h)
          · exact absurd h.symm hc
          · exact ih.mpr h

theorem post_process_claim_counterexample :
    postProcess "hello".data "Story: abcdefghijklmnopqrstuvwxyz".data =
      "abcdefghijklmnopqrstuvwxyz".data ∧
    postProcessClaimed "hello".data "Story: abcdefghijklmnopqrstuvwxyz".data = [] ∧
    postProcess "hello".data "Story: abcdefghijklmnopqrstuvwxyz".data ≠
      postProcessClaimed "hello".data "Story: abcdefghijklmnopqrstuvwxyz".data :=
  ⟨by decide, by decide, by decide⟩

/-- C7 (amended): the cleanup pipeline drops the text before the first
`"Story: "` marker, then the echoed prompt, and in the third step
leaves the text alone when it starts with a template opener, drops the
first `'.'`-delimited sentence and rejoins the remainder when the text
contains at least one `'.'`, and leaves a dot-free text unchanged. -/
theorem post_process_amended_eq (prompt generated : Str) :
    postProcess prompt generated = postProcessAmended prompt generated := by
  unfold postProcess postProcessAmended
  dsimp only
  set g := stripEchoedPrompt prompt (stripStoryMarker generated) with hg
  by_cases hstart : (sentimentStarters.any fun t => t.isPrefixOf g) = true
  · rw [if_pos hstart, if_pos hstart]
  · rw [if_neg hstart, if_neg hstart]
    by_cases hdot : '.' ∈ g
    · rw [if_pos ((splitOnDot_length_gt g).mpr hdot), if_pos (List.elem_iff.mpr hdot)]
    · rw [if_neg (fun h => hdot ((splitOnDot_length_gt g).mp h)),
        if_neg (fun h => hdot (List.elem_iff.mp h))]

theorem history_clear_counterexample :
    uiStep [⟨"p".data, "positive".data, "g".data, "t".data⟩] UiAction.clear = [] ∧
    (List.isPrefixOf [(⟨"p".data, "positive".data, "g".data, "t".data⟩ : HistoryEntry)]
      (uiStep [⟨"p".data, "positive".data, "g".data, "t".data⟩] UiAction.clear)) = false :=
  ⟨rfl, by decide⟩

/-- C8 (amended): generations only append, so after any number of
generations with no Clear History action every entry is retained in
order, while the display surface is the reverse-take of the five most
recent entries, newest first, and never shows more than 5. -/
theorem history_append_display (init entries history : List HistoryEntry) :
    entries.foldl (fun acc e => uiStep acc (UiAction.generate e)) init = init ++ entries ∧
    displayedHistory history = history.reverse.take 5 ∧
    (displayedHistory history).length ≤ 5 := by
  refine ⟨?_, List.take_reverse.symm, ?_⟩
  · induction entries generalizing init with
    | nil => simp
    | cons e es ih =>
      rw [List.foldl_cons, ih (uiStep init (UiAction.generate e))]
      show (init ++ [e]) ++ es = init ++ e :: es
      simp
  · unfold displayedHistory
    simp only [List.length_reverse, List.length_drop]
    omega

/-- C9: a sentiment outside the three recognized labels behaves
exactly as neutral in prompt templating, sampling parameters, the
contextual fallback and the whole of `generate_text`, with no failure
path. -/
theorem unknown_sentiment_neutral (sentiment : Str)
    (h1 : sentiment ≠ "positive".data) (h2 : sentiment ≠ "negative".data)
    (h3 : sentiment ≠ "neutral".data) :
    (∀ choice prompt, _get_sentiment_prompt choice prompt sentiment =
      _get_sentiment_prompt choice prompt "neutral".data) ∧
    (∀ eos_token_id, generationParams sentiment eos_token_id =
      generationParams "neutral".data eos_token_id) ∧
    (∀ prompt, _generate_contextual_fallback prompt sentiment =
      _generate_contextual_fallback prompt "neutral".data) ∧
    (∀ model_loaded choice outcome prompt,
      generate_text model_loaded choice outcome prompt sentiment =
        generate_text model_loaded choice outcome prompt "neutral".data) := by
  have hfb : ∀ prompt, _generate_contextual_fallback prompt sentiment =
      _generate_contextual_fallback prompt "neutral".data := by
    intro prompt
    unfold _generate_contextual_fallback
    rw [if_neg h1, if_neg h2,
      if_neg (show ¬ ("neutral".data = "positive".data) from by decide),
      if_neg (show ¬ ("neutral".data = "negative".data) from by decide)]
  have hprompt : ∀ choice prompt, _get_sentiment_prompt choice prompt sentiment =
      _get_sentiment_prompt choice prompt "neutral".data := by
    intro choice prompt
    unfold _get_sentiment_prompt
    dsimp only
    rw [if_neg h1, if_neg h2, if_neg h3,
      if_neg (show ¬ ("neutral".data = "positive".data) from by decide),
      if_neg (show ¬ ("neutral".data = "negative".data) from by decide),
      if_pos (show "neutral".data = "neutral".data from rfl)]
  have hparams : ∀ eos_token_id, generationParams sentiment eos_token_id =
      generationParams "neutral".data eos_token_id := by
    intro eos_token_id
    unfold generationParams
    rw [if_neg h1, if_neg h2,
      if_neg (show ¬ ("neutral".data = "positive".data) from by decide),
      if_neg (show ¬ ("neutral".data = "negative".data) from by decide)]
  refine ⟨hprompt, hparams, hfb, ?_⟩
  intro model_loaded choice outcome prompt
  cases model_loaded with
  | false => exact hfb prompt
  | true =>
    cases outcome with
    | raised => exact hfb prompt
    | ok raw =>
      rw [generate_text_ok_eq, generate_text_ok_eq]
      by_cases hlen : (strip (postProcess prompt raw)).length < 20
      · rw [if_pos hlen, if_pos hlen]
        exact hfb prompt
      · rw [if_neg hlen, if_neg hlen]

theorem unknown_sentiment_neutral_witness :
    generate_text true 0 GenOutcome.raised "Morning walk".data "mixed".data =
      generate_text true 0 GenOutcome.raised "Morning walk".data "neutral".data :=
  (unknown_sentiment_neutral "mixed".data (by decide) (by decide) (by decide)).2.2.2 true 0
    GenOutcome.raised "Morning walk".data

end SentimentGen
